import Mathlib

/-!
Verification of the subtitle-alignment and word-annotation core of the
yt-thai-learner backend.

Shallow embedding conventions:
* Python floats (timestamps in seconds, overlap scores) are modelled as
  exact rationals.
* Python dicts with optional keys become structures with Option fields;
  dict.get with a default becomes Option.getD.
* External collaborators (the ICU transliterator, the pythainlp
  tokenizer, unicodedata NFC normalization) are opaque function
  parameters.
* Python string primitives (strip, startswith, lower, split) are
  modelled character-by-character with structural recursion so that the
  kernel can evaluate them; Char.isWhitespace agrees with Python
  str.strip / regex \s on the ASCII whitespace appearing in all
  concrete inputs, and Char.toLower agrees with Python str.lower on
  ASCII (Thai characters are unaffected by lowercasing in both).
-/

/- ===== Python string primitives ===== -/

/-- Python str.strip with no arguments: remove leading and trailing
whitespace. -/
def pyStrip (s : String) : String :=
  String.mk
    (((s.data.dropWhile Char.isWhitespace).reverse.dropWhile
        Char.isWhitespace).reverse)

/-- Python text.startswith of a single opening square bracket, as used
by the cue filter. -/
def startsWithBracket (s : String) : Bool :=
  match s.data with
  | [] => false
  | c :: _ => c = '['

/-- Python str.lower (ASCII case folding; identity on Thai). -/
def pyLower (s : String) : String :=
  String.mk (s.data.map Char.toLower)

/- ===== models/subtitle_schemas.py ===== -/

/-- models/subtitle_schemas.py: SubtitleEntry dataclass. -/
structure SubtitleEntry where
  text : String
  start : ℚ
  duration : ℚ
deriving DecidableEq, Repr

/-- SubtitleEntry.end property (end = start + duration); named endTime
because end is a reserved word in Lean. -/
def SubtitleEntry.endTime (s : SubtitleEntry) : ℚ :=
  s.start + s.duration

/-- models/subtitle_schemas.py: AlignedSubtitle dataclass. -/
structure AlignedSubtitle where
  thai : SubtitleEntry
  english : SubtitleEntry
  overlap_score : ℚ
deriving DecidableEq, Repr

/- ===== raw transcript input (dict shapes consumed by the service) ===== -/

/-- One raw cue record from transcript_data: a dict whose text, start and
duration keys may be missing (item.get defaults: text to the empty
string, start and duration to 0.0). -/
structure RawCue where
  text : Option String := none
  start : Option ℚ := none
  duration : Option ℚ := none
deriving DecidableEq, Repr

/-- The transcript dict passed to extract_subtitle_entries: its
transcript_data key may be absent or null.  An empty cue list is handled
identically to a missing key by the loop, so no separate case is
needed. -/
structure TranscriptData where
  transcript_data : Option (List RawCue)
deriving DecidableEq, Repr

/- ===== services/subtitle_alignment_service.py ===== -/

/-- The body of the for-loop of extract_subtitle_entries: entries starts
as the empty accumulator and each retained cue is appended at the end. -/
def extractLoop : List SubtitleEntry → List RawCue → List SubtitleEntry
  | acc, [] => acc
  | acc, item :: rest =>
    let text := pyStrip (item.text.getD "")
    if text ≠ "" ∧ startsWithBracket text = false then
      extractLoop
        (acc ++ [{ text := text,
                   start := item.start.getD 0,
                   duration := item.duration.getD 0 }]) rest
    else
      extractLoop acc rest

/-- SubtitleAlignmentService.extract_subtitle_entries: filters out cues
with empty trimmed text or trimmed text starting with a bracket. -/
def extract_subtitle_entries (transcript_data : Option TranscriptData) :
    List SubtitleEntry :=
  match transcript_data with
  | none => []
  | some d =>
    match d.transcript_data with
    | none => []
    | some items => extractLoop [] items

/-- SubtitleAlignmentService.calculate_overlap. -/
def calculate_overlap (thai_sub eng_sub : SubtitleEntry) : ℚ :=
  let overlap_start := max thai_sub.start eng_sub.start
  let overlap_end := min thai_sub.endTime eng_sub.endTime
  if overlap_start ≥ overlap_end then 0
  else
    let overlap_duration := overlap_end - overlap_start
    let min_duration := min thai_sub.duration eng_sub.duration
    if min_duration > 0 then overlap_duration / min_duration else 0

/-- State of the inner look-ahead scan of align_subtitles: best_match,
best_score and best_eng_idx. -/
structure ScanState where
  best_match : Option SubtitleEntry
  best_score : ℚ
  best_eng_idx : ℕ
deriving DecidableEq, Repr

/-- The inner while-loop of align_subtitles: scan the English subtitles
from position temp_eng_idx, breaking once one starts after the Thai cue
ends, skipping those that end before the Thai cue starts, and recording
any strictly better overlap that reaches the threshold. -/
def lookAhead (threshold : ℚ) (thai_sub : SubtitleEntry) :
    List SubtitleEntry → ℕ → ScanState → ScanState
  | [], _, st => st
  | eng_sub :: rest, i, st =>
    if eng_sub.start > thai_sub.endTime then st
    else if eng_sub.endTime < thai_sub.start then
      lookAhead threshold thai_sub rest (i + 1) st
    else
      let overlap := calculate_overlap thai_sub eng_sub
      if overlap > st.best_score ∧ overlap ≥ threshold then
        lookAhead threshold thai_sub rest (i + 1) ⟨some eng_sub, overlap, i⟩
      else
        lookAhead threshold thai_sub rest (i + 1) st

/-- The cursor update at the end of one outer iteration of
align_subtitles: if a match was found at index best_eng_idx at or after
the current cursor, the cursor becomes max eng_idx best_eng_idx;
otherwise it is left unchanged. -/
def nextEngIdx (eng_idx : ℕ) (st : ScanState) : ℕ :=
  if st.best_match.isSome ∧ st.best_eng_idx ≥ eng_idx then
    max eng_idx st.best_eng_idx
  else eng_idx

/-- The outer while-loop of align_subtitles, one recursive step per Thai
subtitle, carrying the English cursor eng_idx. -/
def alignLoop (threshold : ℚ) (eng_subs : List SubtitleEntry) :
    List SubtitleEntry → ℕ → List AlignedSubtitle
  | [], _ => []
  | thai_sub :: rest, eng_idx =>
    if eng_idx < eng_subs.length then
      let st := lookAhead threshold thai_sub (eng_subs.drop eng_idx) eng_idx
        ⟨none, 0, eng_idx⟩
      match st.best_match with
      | some best_match =>
        { thai := thai_sub, english := best_match,
          overlap_score := st.best_score } ::
          alignLoop threshold eng_subs rest (nextEngIdx eng_idx st)
      | none => alignLoop threshold eng_subs rest (nextEngIdx eng_idx st)
    else []

/-- SubtitleAlignmentService.align_subtitles with the service's
overlap_threshold made an explicit parameter. -/
def align_subtitles (threshold : ℚ)
    (thai_subs eng_subs : List SubtitleEntry) : List AlignedSubtitle :=
  if thai_subs = [] ∨ eng_subs = [] then []
  else alignLoop threshold eng_subs thai_subs 0

/- ===== models/dict_schemas.py ===== -/

/-- models/dict_schemas.py: DictionaryEntry frozen dataclass.  All
optional fields default to None. -/
structure DictionaryEntry where
  id : ℤ
  t_word : Option String := none
  t_syn : Option String := none
  t_ant : Option String := none
  t_def : Option String := none
  freq_english : Option String := none
  e_dict : Option String := none
  e_dict_v : Option String := none
  rom_english : Option String := none
  e_related : Option String := none
  freq_ipa : Option String := none
  romanization : Option String := none
  phonetic : Option String := none
  dict_category : Option String := none
  rom_category : Option String := none
  freq_rank : Option ℤ := none
  frequency : Option ℤ := none
  freq_example : Option String := none
  t_sample_sentence : Option String := none
  sample_sentence : Option String := none
  match_score : Option ℚ := none
  etymology : Option String := none
  domain : Option String := none
  match_type : Option String := none
  smart_match_id : Option ℤ := none
  dict_id : Option ℤ := none
  rom_id : Option ℤ := none
deriving DecidableEq, Repr

/-- DictionaryEntry.headword property: the main Thai headword is the
t_word field. -/
def DictionaryEntry.headword (e : DictionaryEntry) : Option String :=
  e.t_word

/-- Python getattr(entry, field_name, None) restricted to the
string-valued attributes of DictionaryEntry; every other name (in
particular t_entry, t_search and e_entry, which DictionaryEntry does not
possess) yields None. -/
def DictionaryEntry.getField (e : DictionaryEntry) : String → Option String
  | "t_word" => e.t_word
  | "t_syn" => e.t_syn
  | "t_ant" => e.t_ant
  | "t_def" => e.t_def
  | "freq_english" => e.freq_english
  | "e_dict" => e.e_dict
  | "e_dict_v" => e.e_dict_v
  | "rom_english" => e.rom_english
  | "e_related" => e.e_related
  | "freq_ipa" => e.freq_ipa
  | "romanization" => e.romanization
  | "phonetic" => e.phonetic
  | "dict_category" => e.dict_category
  | "rom_category" => e.rom_category
  | "freq_example" => e.freq_example
  | "t_sample_sentence" => e.t_sample_sentence
  | "sample_sentence" => e.sample_sentence
  | "etymology" => e.etymology
  | "domain" => e.domain
  | "match_type" => e.match_type
  | _ => none

/-- models/dict_schemas.py: SearchResult dataclass. -/
structure SearchResult where
  word : String
  entries : List DictionaryEntry
deriving DecidableEq, Repr

/-- Stable insertion sort used to model Python's stable list.sort /
sorted: elements are inserted from the right, each placed before the
first later element it is ≤ to, so equal keys keep their original
relative order. -/
def insertLe {α : Type} (le : α → α → Bool) (a : α) : List α → List α
  | [] => [a]
  | b :: bs => if le a b then a :: b :: bs else b :: insertLe le a bs

/-- Stable sort by folding insertLe from the right. -/
def sortLe {α : Type} (le : α → α → Bool) (l : List α) : List α :=
  l.foldr (insertLe le) []

/-- SearchResult.get_english_translations: per entry take e_dict, else
e_dict_v, else rom_english (each tested with "is not None"), collect
into a set, return sorted.  The set-then-sorted is modelled as dedup
followed by a sort. -/
def SearchResult.get_english_translations (r : SearchResult) :
    List String :=
  let collected := r.entries.filterMap (fun e =>
    match e.e_dict with
    | some v => some v
    | none =>
      match e.e_dict_v with
      | some v => some v
      | none => e.rom_english)
  sortLe (fun a b => decide (a ≤ b)) collected.dedup

/- ===== utils/dict_helpers.py ===== -/

/-- Membership in the zero-width / BOM character class removed by the
_ZW_RE regex. -/
def isZeroWidthChar (c : Char) : Bool :=
  c = '\u200B' ∨ c = '\u200C' ∨ c = '\u200D' ∨ c = '\u2060' ∨ c = '\uFEFF'

/-- The _ZW_RE.sub("", text) step: delete all zero-width characters. -/
def removeZeroWidth (s : String) : String :=
  String.mk (s.data.filter (fun c => isZeroWidthChar c = false))

/-- Character-level worker for the _WS_RE.sub(" ", text) step: every
maximal run of whitespace becomes one space.  The boolean records
whether the previous character was whitespace. -/
def collapseWsAux : Bool → List Char → List Char
  | _, [] => []
  | prevWs, c :: cs =>
    if c.isWhitespace then
      if prevWs then collapseWsAux true cs
      else ' ' :: collapseWsAux true cs
    else c :: collapseWsAux false cs

/-- The _WS_RE.sub(" ", text) step: collapse whitespace runs. -/
def collapseWs (s : String) : String :=
  String.mk (collapseWsAux false s.data)

/-- Python text.replace of NBSP (U+00A0) by a plain space. -/
def replaceNbsp (s : String) : String :=
  String.mk (s.data.map (fun c => if c = '\u00A0' then ' ' else c))

/-- dict_helpers.normalize_text, parameterized by the external
unicodedata.normalize("NFC", ·) collaborator: replace NBSP, strip,
remove zero-width characters, collapse whitespace, NFC-normalize, and
return None when the result is empty. -/
def normalize_text (nfc : String → String) :
    Option String → Option String
  | none => none
  | some t =>
    let t := pyStrip (replaceNbsp t)
    let t := removeZeroWidth t
    let t := collapseWs t
    let t := nfc t
    if t = "" then none else some t

/-- dict_helpers.normalize_search_term: normalize_text plus
lowercasing, with the empty string for falsy inputs or results. -/
def normalize_search_term (nfc : String → String) (term : String) :
    String :=
  if term = "" then ""
  else
    match normalize_text nfc (some term) with
    | some normalized => pyLower normalized
    | none => ""

/-- Character-level worker for Python str.split of a comma: acc holds
the current piece reversed. -/
def splitCommaAux : List Char → List Char → List String
  | acc, [] => [String.mk acc.reverse]
  | acc, c :: cs =>
    if c = ',' then String.mk acc.reverse :: splitCommaAux [] cs
    else splitCommaAux (c :: acc) cs

/-- Python field_value.split of a comma separator. -/
def splitComma (s : String) : List String :=
  splitCommaAux [] s.data

/-- dict_helpers._entry_matches_exact: the search fields are scanned;
comma-separated synonym fields (t_syn, e_related) are split and each
sub-term stripped, normalized and compared, other fields are normalized
whole and compared.  Fields that are missing or empty are skipped. -/
def entry_matches_exact (nfc : String → String) (entry : DictionaryEntry)
    (normalized_search : String) (search_fields : List String) : Bool :=
  search_fields.any (fun field_name =>
    match entry.getField field_name with
    | none => false
    | some field_value =>
      if field_value = "" then false
      else if field_name = "t_syn" ∨ field_name = "e_related" then
        (splitComma field_value).any
          (fun term => normalize_search_term nfc (pyStrip term) =
            normalized_search)
      else
        normalize_search_term nfc field_value = normalized_search)

/-- dict_helpers.search_dictionary: exact-match search over the given
fields (defaulting to the five main fields), results sorted by id. -/
def search_dictionary (nfc : String → String)
    (entries : List DictionaryEntry) (search_term : String)
    (search_fields : Option (List String)) : SearchResult :=
  if search_term = "" ∨ entries = [] then ⟨search_term, []⟩
  else
    let normalized_search := normalize_search_term nfc search_term
    let fields := search_fields.getD
      ["t_search", "t_entry", "e_entry", "t_syn", "e_related"]
    let matching := entries.filter
      (fun e => entry_matches_exact nfc e normalized_search fields)
    ⟨search_term, sortLe (fun a b => decide (a.id ≤ b.id)) matching⟩

/-- dict_helpers._HEADWORD_FIELDS: the field-name set used by the
headword-only search. -/
def HEADWORD_FIELDS : List String :=
  ["t_entry", "t_search"]

/-- dict_helpers.search_headwords_only. -/
def search_headwords_only (nfc : String → String)
    (entries : List DictionaryEntry) (headword : String) : SearchResult :=
  search_dictionary nfc entries headword (some HEADWORD_FIELDS)

/-- services/dictionary_service.py: DictionaryService.search_word, the
service holding a loaded entry list and delegating to
search_headwords_only (the service imports it from utils.dict_util,
whose search_headwords_only is the one in utils/dict_helpers.py cited
for this behavior). -/
def DictionaryService.search_word (nfc : String → String)
    (entries : List DictionaryEntry) (word : String) : SearchResult :=
  search_headwords_only nfc entries word

/- ===== utils/word_util.py ===== -/

/-- models/dict_schemas.py: TokenizedThaiWord dataclass. -/
structure TokenizedThaiWord where
  thai : String
  transliterated : String
  english_translations : List String
deriving DecidableEq, Repr

/-- The inline pattern used twice in process_thai_word:
search_result.get_english_translations() if search_result else [].
SearchResult truthiness is entries being nonempty. -/
def translations_of (search_result : SearchResult) : List String :=
  if search_result.entries ≠ [] then
    search_result.get_english_translations
  else []

/-- Operational trace of one process_thai_word call: how many times the
(cached) transliterator call site, the primary-dictionary search_word
call site and the secondary-dictionary search_word call site were
executed. -/
structure LookupTrace where
  translit_calls : ℕ
  freq_calls : ℕ
  full_calls : ℕ
deriving DecidableEq, Repr

/-- Result of one process_thai_word call: the TokenizedThaiWord, the
updated module-level _word_cache, and the call trace. -/
structure ProcessResult where
  result : TokenizedThaiWord
  cache : String → Option TokenizedThaiWord
  trace : LookupTrace

/-- word_util.process_thai_word.  The module-level _word_cache is passed
and returned explicitly; the transliterator and the two dictionary
services are opaque collaborators (a service is its search_word
function, and dict_service_full is optional with None default). -/
def process_thai_word (translit : String → String)
    (dict_service_freq : String → SearchResult)
    (dict_service_full : Option (String → SearchResult))
    (word_cache : String → Option TokenizedThaiWord)
    (word : String) : ProcessResult :=
  match word_cache word with
  | some cached => ⟨cached, word_cache, ⟨0, 0, 0⟩⟩
  | none =>
    let transliterated := translit word
    let english_translations := translations_of (dict_service_freq word)
    let second :=
      if english_translations.length = 0 then
        match dict_service_full with
        | some dict_service_full =>
          (translations_of (dict_service_full word), 1)
        | none => (english_translations, 0)
      else (english_translations, 0)
    let result : TokenizedThaiWord := ⟨word, transliterated, second.1⟩
    ⟨result,
     fun w => if w = word then some result else word_cache w,
     ⟨1, 1, second.2⟩⟩

/- ===== pipeline: process_video_for_learning ===== -/

/-- models/subtitle_schemas.py: LearningEntry dataclass. -/
structure LearningEntry where
  thai_text : String
  english_text : String
  start_time : ℚ
  duration : ℚ
  overlap_score : ℚ
  word_breakdown : List TokenizedThaiWord
deriving DecidableEq, Repr

/-- SubtitleAlignmentService.create_learning_entries, with
process_thai_sentence (tokenizer + per-token annotation, built on the
external pythainlp tokenizer) abstracted as the annotate collaborator. -/
def create_learning_entries
    (annotate : String → List TokenizedThaiWord)
    (aligned_subs : List AlignedSubtitle) : List LearningEntry :=
  aligned_subs.map (fun aligned_sub =>
    { thai_text := aligned_sub.thai.text,
      english_text := aligned_sub.english.text,
      start_time := aligned_sub.thai.start,
      duration := aligned_sub.thai.duration,
      overlap_score := aligned_sub.overlap_score,
      word_breakdown := annotate aligned_sub.thai.text })

/-- The result dict of process_video_for_learning: keys present only in
some branches are Options. -/
structure PipelineResult where
  success : Bool
  error : Option String := none
  video_id : Option String := none
  total_thai_subs : Option ℕ := none
  total_english_subs : Option ℕ := none
  aligned_count : Option ℕ := none
  alignment_rate : Option ℚ := none
  learning_entries : List LearningEntry

/-- SubtitleAlignmentService.process_video_for_learning.  The external
transcript fetch (get_subtitles_for_video) is a collaborator, so the
fetched thai_data / english_data are inputs; a falsy fetched dict is
modelled as none.  The serialization of learning entries back into
dicts is the identity on the modelled fields. -/
def process_video_for_learning (threshold : ℚ)
    (annotate : String → List TokenizedThaiWord) (video_id : String)
    (thai_data english_data : Option TranscriptData) : PipelineResult :=
  if thai_data = none ∨ english_data = none then
    let missing :=
      (if thai_data = none then ["Thai"] else []) ++
        (if english_data = none then ["English"] else [])
    { success := false,
      error := some ("Missing subtitles for: " ++
        String.intercalate ", " missing),
      learning_entries := [] }
  else
    let thai_subs := extract_subtitle_entries thai_data
    let eng_subs := extract_subtitle_entries english_data
    if thai_subs = [] ∨ eng_subs = [] then
      { success := false,
        error := some "No valid subtitle entries found",
        learning_entries := [] }
    else
      let aligned_subs := align_subtitles threshold thai_subs eng_subs
      if aligned_subs = [] then
        { success := false,
          error := some "Could not align any subtitles",
          learning_entries := [] }
      else
        { success := true,
          video_id := some video_id,
          total_thai_subs := some thai_subs.length,
          total_english_subs := some eng_subs.length,
          aligned_count := some aligned_subs.length,
          alignment_rate := some
            (if thai_subs ≠ [] then
              (aligned_subs.length : ℚ) / (thai_subs.length : ℚ)
            else 0),
          learning_entries := create_learning_entries annotate aligned_subs }

/- ===== concrete stand-ins for opaque collaborators ===== -/

/-- Concrete dictionary-service stand-in returning no entries, used to
instantiate hypothesis-bearing theorems at a concrete input. -/
def emptySearchService : String → SearchResult :=
  fun _ => ⟨"", []⟩

/-- Concrete transliterator stand-in. -/
def idTranslit : String → String :=
  fun w => w

/-- Concrete empty word cache. -/
def emptyWordCache : String → Option TokenizedThaiWord :=
  fun _ => none

/-- Concrete annotation stand-in used to instantiate the pipeline
result at a concrete input. -/
def trivialAnnotate : String → List TokenizedThaiWord :=
  fun _ => []

/- ===== helper lemmas ===== -/

lemma min_duration_pos_of_overlap (s t : SubtitleEntry)
    (h : max s.start t.start < min s.endTime t.endTime) :
    0 < min s.duration t.duration := by
  have h1 : min s.endTime t.endTime ≤ s.endTime := min_le_left _ _
  have h2 : min s.endTime t.endTime ≤ t.endTime := min_le_right _ _
  have h3 : s.start ≤ max s.start t.start := le_max_left _ _
  have h4 : t.start ≤ max s.start t.start := le_max_right _ _
  simp only [SubtitleEntry.endTime] at h h1 h2
  exact lt_min (by linarith) (by linarith)

/-- C3: calculate_overlap equals the spec's closed formula
max(0, min(end) - max(start)) / min(duration) and is 0 whenever the
minimum duration is 0, with no division-by-zero failure. -/
theorem calculate_overlap_formula (s t : SubtitleEntry) :
    calculate_overlap s t =
      max 0 (min s.endTime t.endTime - max s.start t.start) /
        min s.duration t.duration ∧
    (min s.duration t.duration = 0 → calculate_overlap s t = 0) := by
  constructor
  · simp only [calculate_overlap]
    split_ifs with h1 h2
    · rw [max_eq_left (sub_nonpos.mpr h1), zero_div]
    · rw [max_eq_right (le_of_lt (sub_pos.mpr (not_le.mp h1)))]
    · exact absurd (min_duration_pos_of_overlap s t (not_le.mp h1)) h2
  · intro hm
    simp only [calculate_overlap]
    split_ifs with h1 h2
    · rfl
    · rw [hm] at h2
      exact absurd h2 (lt_irrefl 0)
    · rfl

/-- C3 witness: at entries with durations 0 and 5 the minimum duration
is 0 and the overlap is 0. -/
theorem calculate_overlap_formula_witness :
    calculate_overlap ⟨"a", 0, 0⟩ ⟨"b", 0, 5⟩ = 0 :=
  (calculate_overlap_formula ⟨"a", 0, 0⟩ ⟨"b", 0, 5⟩).2 (by simp)

lemma getField_t_entry (e : DictionaryEntry) :
    e.getField "t_entry" = none := rfl

lemma getField_t_search (e : DictionaryEntry) :
    e.getField "t_search" = none := rfl

lemma entry_matches_headword_false (nfc : String → String)
    (e : DictionaryEntry) (ns : String) :
    entry_matches_exact nfc e ns HEADWORD_FIELDS = false := by
  simp [entry_matches_exact, HEADWORD_FIELDS, getField_t_entry,
    getField_t_search]

lemma search_headwords_only_entries_nil (nfc : String → String)
    (entries : List DictionaryEntry) (q : String) :
    (search_headwords_only nfc entries q).entries = [] := by
  unfold search_headwords_only search_dictionary
  split_ifs with h
  · rfl
  · simp only [Option.getD_some]
    have hfil : entries.filter
        (fun e => entry_matches_exact nfc e (normalize_search_term nfc q)
          HEADWORD_FIELDS) = [] := by
      rw [List.filter_eq_nil_iff]
      intro a _
      simp [entry_matches_headword_false]
    rw [hfil]
    rfl

/-- C10: the headword-only search used by the dictionary service can
never return an entry, because the field names it searches (t_entry,
t_search) are not attributes of DictionaryEntry, so getattr yields None
for every entry; hence DictionaryService.search_word always yields an
empty match set and an annotated token built from the two services (on
a fresh cache) has an empty translation list. -/
theorem headword_search_always_empty (nfc : String → String)
    (entries : List DictionaryEntry) (w : String) :
    (search_headwords_only nfc entries w).entries = [] ∧
    (DictionaryService.search_word nfc entries w).entries = [] ∧
    ∀ (translit : String → String)
      (freqEntries fullEntries : List DictionaryEntry),
      (process_thai_word translit
          (DictionaryService.search_word nfc freqEntries)
          (some (DictionaryService.search_word nfc fullEntries))
          (fun _ => none) w).result.english_translations = [] := by
  refine ⟨search_headwords_only_entries_nil nfc entries w,
    search_headwords_only_entries_nil nfc entries w, ?_⟩
  intro translit freqEntries fullEntries
  have h1 := search_headwords_only_entries_nil nfc freqEntries w
  have h2 := search_headwords_only_entries_nil nfc fullEntries w
  simp [process_thai_word, translations_of, DictionaryService.search_word,
    h1, h2]

/-- C1 (code bug witness): an entry whose Thai headword t_word is
exactly the query is nevertheless not returned by the headword-only
search, because that search examines the nonexistent attributes t_entry
and t_search instead of t_word; NFC is instantiated as the identity,
which is its value on this ASCII input. -/
theorem headword_search_misses_matching_headword :
    ({ id := 1, t_word := some "abc" } : DictionaryEntry).headword =
        some "abc" ∧
    normalize_search_term id "abc" = "abc" ∧
    normalize_search_term id
        ((({ id := 1, t_word := some "abc" } :
          DictionaryEntry).headword).getD "") =
      normalize_search_term id "abc" ∧
    (search_headwords_only id
        [{ id := 1, t_word := some "abc" }] "abc").entries = [] := by
  refine ⟨rfl, by decide, by decide, ?_⟩
  exact search_headwords_only_entries_nil id _ "abc"

/-- C5: on a cache miss with a secondary service present, the secondary
dictionary call site runs exactly when the primary translation list is
empty, and the resulting translation list is the primary list when that
is non-empty and otherwise exactly the secondary list (full
replacement, never a merge). -/
theorem secondary_lookup_iff_primary_empty
    (translit : String → String)
    (dict_service_freq dict_service_full : String → SearchResult)
    (word_cache : String → Option TokenizedThaiWord) (word : String)
    (h : word_cache word = none) :
    ((process_thai_word translit dict_service_freq
        (some dict_service_full) word_cache word).trace.full_calls =
      if translations_of (dict_service_freq word) = [] then 1 else 0) ∧
    ((process_thai_word translit dict_service_freq
        (some dict_service_full) word_cache word).result.english_translations =
      if translations_of (dict_service_freq word) = [] then
        translations_of (dict_service_full word)
      else translations_of (dict_service_freq word)) := by
  by_cases he : translations_of (dict_service_freq word) = []
  · simp [process_thai_word, h, he]
  · simp [process_thai_word, h, he, List.length_eq_zero]

/-- C5 witness: with empty stand-in services and an empty cache, the
secondary call site runs once and the result is the (empty) secondary
list. -/
theorem secondary_lookup_iff_primary_empty_witness :
    ((process_thai_word idTranslit emptySearchService
        (some emptySearchService) emptyWordCache "ab").trace.full_calls =
      if translations_of (emptySearchService "ab") = [] then 1 else 0) ∧
    ((process_thai_word idTranslit emptySearchService
        (some emptySearchService) emptyWordCache
        "ab").result.english_translations =
      if translations_of (emptySearchService "ab") = [] then
        translations_of (emptySearchService "ab")
      else translations_of (emptySearchService "ab")) :=
  secondary_lookup_iff_primary_empty idTranslit emptySearchService
    emptySearchService emptyWordCache "ab" rfl

/-- C6: annotating the same surface string twice costs at most one
transliteration and one lookup per tier in total: the first call
executes each collaborator call site at most once, and the second call
(on the cache returned by the first) executes none of them and returns
a value equal to the first. -/
theorem annotation_cache_idempotent (translit : String → String)
    (dict_service_freq : String → SearchResult)
    (dict_service_full : Option (String → SearchResult))
    (word_cache : String → Option TokenizedThaiWord) (word : String) :
    (process_thai_word translit dict_service_freq dict_service_full
        (process_thai_word translit dict_service_freq dict_service_full
          word_cache word).cache word).result =
      (process_thai_word translit dict_service_freq dict_service_full
        word_cache word).result ∧
    (process_thai_word translit dict_service_freq dict_service_full
        (process_thai_word translit dict_service_freq dict_service_full
          word_cache word).cache word).trace = ⟨0, 0, 0⟩ ∧
    (process_thai_word translit dict_service_freq dict_service_full
        word_cache word).trace.translit_calls ≤ 1 ∧
    (process_thai_word translit dict_service_freq dict_service_full
        word_cache word).trace.freq_calls ≤ 1 ∧
    (process_thai_word translit dict_service_freq dict_service_full
        word_cache word).trace.full_calls ≤ 1 := by
  cases hc : word_cache word with
  | some v => simp [process_thai_word, hc]
  | none =>
    simp only [process_thai_word, hc]
    refine ⟨rfl, rfl, by norm_num, by norm_num, ?_⟩
    split_ifs with h
    · cases dict_service_full <;> simp
    · simp

lemma extractLoop_eq_append_filterMap (items : List RawCue) :
    ∀ acc, extractLoop acc items =
      acc ++ items.filterMap (fun item =>
        if pyStrip (item.text.getD "") ≠ "" ∧
            startsWithBracket (pyStrip (item.text.getD "")) = false then
          some { text := pyStrip (item.text.getD ""),
                 start := item.start.getD 0,
                 duration := item.duration.getD 0 }
        else none) := by
  induction items with
  | nil => intro acc; simp [extractLoop]
  | cons item rest ih =>
    intro acc
    by_cases h : pyStrip (item.text.getD "") ≠ "" ∧
        startsWithBracket (pyStrip (item.text.getD "")) = false
    · simp only [extractLoop, if_pos h, ih, List.filterMap_cons, if_pos h]
      simp
    · simp only [extractLoop, if_neg h, ih, List.filterMap_cons, if_neg h]

/-- C7: extraction keeps exactly the cues whose stripped text is
non-empty and does not begin with an opening bracket, in their original
order with their original start and duration values (default 0 when
missing) and stripped text; in particular a Music annotation cue and a
whitespace-only cue are dropped while a Hello cue is kept unchanged.
Extraction is a total function, so no input makes it throw. -/
theorem extract_filter_characterization :
    (∀ (items : List RawCue),
      extract_subtitle_entries (some ⟨some items⟩) =
        items.filterMap (fun item =>
          if pyStrip (item.text.getD "") ≠ "" ∧
              startsWithBracket (pyStrip (item.text.getD "")) = false then
            some { text := pyStrip (item.text.getD ""),
                   start := item.start.getD 0,
                   duration := item.duration.getD 0 }
          else none)) ∧
    extract_subtitle_entries
        (some ⟨some [⟨some "[Music]", some 0, some 2⟩]⟩) = [] ∧
    extract_subtitle_entries
        (some ⟨some [⟨some "   ", some 0, some 2⟩]⟩) = [] ∧
    extract_subtitle_entries
        (some ⟨some [⟨some "Hello", some 3, some 2⟩]⟩) =
      [⟨"Hello", 3, 2⟩] := by
  refine ⟨?_, by decide, by decide, by decide⟩
  intro items
  simp only [extract_subtitle_entries]
  rw [extractLoop_eq_append_filterMap]
  simp

/-- C9 counterexample: a raw cue carrying duration -1 is not clamped;
the extracted entry has duration -1 < 0. -/
theorem extract_negative_duration_counterexample :
    (extract_subtitle_entries
        (some ⟨some [⟨some "Hello", some 0, some (-1)⟩]⟩)).map
      SubtitleEntry.duration = [-1] ∧
    ((-1 : ℚ) < 0) := by
  constructor
  · simp [extract_subtitle_entries, extractLoop, SubtitleEntry.duration]
    decide
  · norm_num

/-- C9 as amended: extraction copies each retained cue's raw duration
value unchanged (0 only when the field is missing, by the get default),
so every extracted entry has nonnegative duration provided every raw
cue's (defaulted) duration value is nonnegative; no clamping is
performed. -/
theorem extract_duration_from_raw (items : List RawCue)
    (h : ∀ c ∈ items, 0 ≤ c.duration.getD 0) :
    ∀ e ∈ extract_subtitle_entries (some ⟨some items⟩), 0 ≤ e.duration := by
  intro e he
  simp only [extract_subtitle_entries] at he
  rw [extractLoop_eq_append_filterMap, List.nil_append,
    List.mem_filterMap] at he
  obtain ⟨c, hc, hfc⟩ := he
  by_cases hk : pyStrip (c.text.getD "") ≠ "" ∧
      startsWithBracket (pyStrip (c.text.getD "")) = false
  · rw [if_pos hk] at hfc
    obtain rfl := Option.some_injective _ hfc
    exact h c hc
  · rw [if_neg hk] at hfc
    exact absurd hfc (by simp)

/-- C9 witness: with a single raw cue of duration 1, the extracted
entry has nonnegative duration. -/
theorem extract_duration_from_raw_witness :
    0 ≤ (⟨"Hello", 0, 1⟩ : SubtitleEntry).duration :=
  extract_duration_from_raw [⟨some "Hello", some 0, some 1⟩]
    (by intro c hc; simp at hc; subst hc; norm_num)
    ⟨"Hello", 0, 1⟩ (by decide)

lemma lookAhead_bestIdx_ge (threshold : ℚ) (thai_sub : SubtitleEntry)
    (n : ℕ) : ∀ (l : List SubtitleEntry) (i : ℕ) (st : ScanState),
    n ≤ i → n ≤ st.best_eng_idx →
    n ≤ (lookAhead threshold thai_sub l i st).best_eng_idx := by
  intro l
  induction l with
  | nil =>
    intro i st hi hst
    simpa [lookAhead] using hst
  | cons eng_sub rest ih =>
    intro i st hi hst
    simp only [lookAhead]
    split_ifs with h1 h2 h3
    · exact hst
    · exact ih (i + 1) st (by omega) hst
    · exact ih (i + 1) _ (by omega) (by simpa using hi)
    · exact ih (i + 1) st (by omega) hst

/-- Evaluation of the inner scan on scenario A's first Thai cue. -/
lemma scenarioA_lookAhead :
    lookAhead (3/10) ⟨"thai1", 0, 5⟩ [⟨"eng1", 0, 10⟩] 0 ⟨none, 0, 0⟩ =
      ⟨some ⟨"eng1", 0, 10⟩, 1, 0⟩ := by
  norm_num [lookAhead, calculate_overlap, SubtitleEntry.endTime]

/-- Evaluation of align_subtitles on scenario A: two pairs, both
referencing the single English cue, both with score 1. -/
lemma scenarioA_align :
    align_subtitles (3/10) [⟨"thai1", 0, 5⟩, ⟨"thai2", 5, 5⟩]
        [⟨"eng1", 0, 10⟩] =
      [⟨⟨"thai1", 0, 5⟩, ⟨"eng1", 0, 10⟩, 1⟩,
       ⟨⟨"thai2", 5, 5⟩, ⟨"eng1", 0, 10⟩, 1⟩] := by
  rw [align_subtitles, if_neg (by simp)]
  norm_num [alignLoop, lookAhead, calculate_overlap, nextEngIdx,
    SubtitleEntry.endTime]

/-- C2: when the scan departing from the current cursor finds a best
match, the cursor for the next Thai subtitle becomes exactly the index
of the matched English subtitle (not one past it), so that entry stays
eligible; consequently on scenario A (source cues (0,5) and (5,5),
target cue (0,10), threshold 0.3) align returns exactly two pairs, both
referencing the same single target entry, both with overlap score 1. -/
theorem align_cursor_reuse_and_scenarioA :
    (∀ (threshold : ℚ) (thai_sub : SubtitleEntry)
        (eng_subs : List SubtitleEntry) (eng_idx : ℕ),
      (lookAhead threshold thai_sub (eng_subs.drop eng_idx) eng_idx
          ⟨none, 0, eng_idx⟩).best_match.isSome = true →
      nextEngIdx eng_idx
          (lookAhead threshold thai_sub (eng_subs.drop eng_idx) eng_idx
            ⟨none, 0, eng_idx⟩) =
        (lookAhead threshold thai_sub (eng_subs.drop eng_idx) eng_idx
          ⟨none, 0, eng_idx⟩).best_eng_idx) ∧
    align_subtitles (3/10) [⟨"thai1", 0, 5⟩, ⟨"thai2", 5, 5⟩]
        [⟨"eng1", 0, 10⟩] =
      [⟨⟨"thai1", 0, 5⟩, ⟨"eng1", 0, 10⟩, 1⟩,
       ⟨⟨"thai2", 5, 5⟩, ⟨"eng1", 0, 10⟩, 1⟩] := by
  refine ⟨?_, scenarioA_align⟩
  intro threshold thai_sub eng_subs eng_idx hsome
  have hge : eng_idx ≤ (lookAhead threshold thai_sub
      (eng_subs.drop eng_idx) eng_idx ⟨none, 0, eng_idx⟩).best_eng_idx :=
    lookAhead_bestIdx_ge threshold thai_sub eng_idx _ eng_idx _
      le_rfl le_rfl
  rw [nextEngIdx, if_pos ⟨hsome, hge⟩]
  exact max_eq_right hge

/-- C2 witness: on scenario A's first Thai cue the scan finds the
English cue at index 0 and the next cursor is exactly that index. -/
theorem align_cursor_reuse_witness :
    nextEngIdx 0
        (lookAhead (3/10) ⟨"thai1", 0, 5⟩
          (List.drop 0 [⟨"eng1", 0, 10⟩]) 0 ⟨none, 0, 0⟩) =
      (lookAhead (3/10) ⟨"thai1", 0, 5⟩
        (List.drop 0 [⟨"eng1", 0, 10⟩]) 0 ⟨none, 0, 0⟩).best_eng_idx :=
  align_cursor_reuse_and_scenarioA.1 (3/10) ⟨"thai1", 0, 5⟩
    [⟨"eng1", 0, 10⟩] 0 (by simp [scenarioA_lookAhead])


lemma calculate_overlap_le_one (s t : SubtitleEntry) :
    calculate_overlap s t ≤ 1 := by
  simp only [calculate_overlap]
  split_ifs with h1 h2
  · norm_num
  · rw [div_le_one h2]
    have h1s := min_le_left s.endTime t.endTime
    have h2s := min_le_right s.endTime t.endTime
    have h3s := le_max_left s.start t.start
    have h4s := le_max_right s.start t.start
    simp only [SubtitleEntry.endTime] at h1s h2s ⊢
    refine le_min ?_ ?_ <;> linarith
  · norm_num

lemma lookAhead_score_bounds (threshold : ℚ) (thai_sub : SubtitleEntry) :
    ∀ (l : List SubtitleEntry) (i : ℕ) (st : ScanState),
    (st.best_match.isSome = true →
      threshold ≤ st.best_score ∧ st.best_score ≤ 1) →
    ((lookAhead threshold thai_sub l i st).best_match.isSome = true →
      threshold ≤ (lookAhead threshold thai_sub l i st).best_score ∧
        (lookAhead threshold thai_sub l i st).best_score ≤ 1) := by
  intro l
  induction l with
  | nil => intro i st hst; simpa [lookAhead] using hst
  | cons eng_sub rest ih =>
    intro i st hst
    simp only [lookAhead]
    split_ifs with h1 h2 h3
    · exact hst
    · exact ih (i + 1) st hst
    · refine ih (i + 1) _ ?_
      intro _
      exact ⟨h3.2, calculate_overlap_le_one thai_sub eng_sub⟩
    · exact ih (i + 1) st hst

lemma alignLoop_score_bounds (threshold : ℚ)
    (eng_subs : List SubtitleEntry) :
    ∀ (thai : List SubtitleEntry) (idx : ℕ) (p : AlignedSubtitle),
    p ∈ alignLoop threshold eng_subs thai idx →
    threshold ≤ p.overlap_score ∧ p.overlap_score ≤ 1 := by
  intro thai
  induction thai with
  | nil =>
    intro idx p hp
    simp [alignLoop] at hp
  | cons thai_sub rest ih =>
    intro idx p hp
    simp only [alignLoop] at hp
    by_cases hidx : idx < eng_subs.length
    · rw [if_pos hidx] at hp
      rcases hbm : (lookAhead threshold thai_sub (eng_subs.drop idx) idx
          ⟨none, 0, idx⟩).best_match with _ | bm
      · rw [hbm] at hp
        exact ih _ p hp
      · rw [hbm] at hp
        rcases List.mem_cons.mp hp with rfl | htail
        · have := lookAhead_score_bounds threshold thai_sub
            (eng_subs.drop idx) idx ⟨none, 0, idx⟩
            (by intro hfalse; simp at hfalse) (by simp [hbm])
          simpa using this
        · exact ih _ p htail
    · rw [if_neg hidx] at hp
      simp at hp

/-- C4: every pair emitted by align_subtitles has an overlap score
between the threshold and 1, for every input and threshold. -/
theorem align_score_bounds (threshold : ℚ)
    (thai_subs eng_subs : List SubtitleEntry) (p : AlignedSubtitle)
    (hp : p ∈ align_subtitles threshold thai_subs eng_subs) :
    threshold ≤ p.overlap_score ∧ p.overlap_score ≤ 1 := by
  rw [align_subtitles] at hp
  split_ifs at hp with h
  · simp at hp
  · exact alignLoop_score_bounds threshold eng_subs thai_subs 0 p hp

/-- C4 witness: the first pair of scenario A has score 1, between the
threshold 0.3 and 1. -/
theorem align_score_bounds_witness :
    (3/10 : ℚ) ≤
        (⟨⟨"thai1", 0, 5⟩, ⟨"eng1", 0, 10⟩, 1⟩ :
          AlignedSubtitle).overlap_score ∧
      (⟨⟨"thai1", 0, 5⟩, ⟨"eng1", 0, 10⟩, 1⟩ :
        AlignedSubtitle).overlap_score ≤ 1 :=
  align_score_bounds (3/10) [⟨"thai1", 0, 5⟩, ⟨"thai2", 5, 5⟩]
    [⟨"eng1", 0, 10⟩] ⟨⟨"thai1", 0, 5⟩, ⟨"eng1", 0, 10⟩, 1⟩
    (by rw [scenarioA_align]; exact List.mem_cons_self _ _)

/-- C8: the pipeline fails with an error naming exactly the missing
language tracks when either fetched track is falsy, with a distinct
no-valid-entries error when either cleaned sequence is empty, with a
distinct could-not-align error when alignment yields zero pairs, and
otherwise succeeds with the full learning-entry list built from the
aligned pairs; each failure carries an empty entry list. -/
theorem pipeline_error_cases (threshold : ℚ)
    (annotate : String → List TokenizedThaiWord) (video_id : String) :
    ((process_video_for_learning threshold annotate video_id
        none none).success = false ∧
      (process_video_for_learning threshold annotate video_id
        none none).error = some "Missing subtitles for: Thai, English" ∧
      (process_video_for_learning threshold annotate video_id
        none none).learning_entries = []) ∧
    (∀ e : TranscriptData,
      (process_video_for_learning threshold annotate video_id
        none (some e)).success = false ∧
      (process_video_for_learning threshold annotate video_id
        none (some e)).error = some "Missing subtitles for: Thai" ∧
      (process_video_for_learning threshold annotate video_id
        none (some e)).learning_entries = []) ∧
    (∀ d : TranscriptData,
      (process_video_for_learning threshold annotate video_id
        (some d) none).success = false ∧
      (process_video_for_learning threshold annotate video_id
        (some d) none).error = some "Missing subtitles for: English" ∧
      (process_video_for_learning threshold annotate video_id
        (some d) none).learning_entries = []) ∧
    (∀ d e : TranscriptData,
      extract_subtitle_entries (some d) = [] ∨
        extract_subtitle_entries (some e) = [] →
      (process_video_for_learning threshold annotate video_id
        (some d) (some e)).success = false ∧
      (process_video_for_learning threshold annotate video_id
        (some d) (some e)).error = some "No valid subtitle entries found" ∧
      (process_video_for_learning threshold annotate video_id
        (some d) (some e)).learning_entries = []) ∧
    (∀ d e : TranscriptData,
      extract_subtitle_entries (some d) ≠ [] →
      extract_subtitle_entries (some e) ≠ [] →
      align_subtitles threshold (extract_subtitle_entries (some d))
        (extract_subtitle_entries (some e)) = [] →
      (process_video_for_learning threshold annotate video_id
        (some d) (some e)).success = false ∧
      (process_video_for_learning threshold annotate video_id
        (some d) (some e)).error = some "Could not align any subtitles" ∧
      (process_video_for_learning threshold annotate video_id
        (some d) (some e)).learning_entries = []) ∧
    (∀ d e : TranscriptData,
      extract_subtitle_entries (some d) ≠ [] →
      extract_subtitle_entries (some e) ≠ [] →
      align_subtitles threshold (extract_subtitle_entries (some d))
        (extract_subtitle_entries (some e)) ≠ [] →
      (process_video_for_learning threshold annotate video_id
        (some d) (some e)).success = true ∧
      (process_video_for_learning threshold annotate video_id
        (some d) (some e)).error = none ∧
      (process_video_for_learning threshold annotate video_id
        (some d) (some e)).learning_entries =
        create_learning_entries annotate
          (align_subtitles threshold (extract_subtitle_entries (some d))
            (extract_subtitle_entries (some e)))) := by
  have hs1 : "Missing subtitles for: " ++
      String.intercalate ", " ["Thai", "English"] =
      "Missing subtitles for: Thai, English" := by decide
  have hs2 : "Missing subtitles for: " ++
      String.intercalate ", " ["Thai"] =
      "Missing subtitles for: Thai" := by decide
  have hs3 : "Missing subtitles for: " ++
      String.intercalate ", " ["English"] =
      "Missing subtitles for: English" := by decide
  refine ⟨?_, ?_, ?_, ?_, ?_, ?_⟩
  · simp [process_video_for_learning, hs1]
  · intro e
    simp [process_video_for_learning, hs2]
  · intro d
    simp [process_video_for_learning, hs3]
  · intro d e h
    rcases h with h | h <;>
      simp [process_video_for_learning, h]
  · intro d e hd he ha
    simp [process_video_for_learning, hd, he, ha]
  · intro d e hd he ha
    simp [process_video_for_learning, hd, he, ha]

/-- C8 witness: with both tracks present but carrying no cue list, the
pipeline reports the distinct no-valid-entries failure. -/
theorem pipeline_error_cases_witness :
    (process_video_for_learning 0 trivialAnnotate "vid"
        (some ⟨none⟩) (some ⟨none⟩)).success = false ∧
    (process_video_for_learning 0 trivialAnnotate "vid"
        (some ⟨none⟩) (some ⟨none⟩)).error =
      some "No valid subtitle entries found" ∧
    (process_video_for_learning 0 trivialAnnotate "vid"
        (some ⟨none⟩) (some ⟨none⟩)).learning_entries = [] :=
  (pipeline_error_cases 0 trivialAnnotate "vid").2.2.2.1 ⟨none⟩ ⟨none⟩
    (Or.inl rfl)
